import Mathlib

/-!
# Verification of the resumable parallel batch-job orchestrator

Shallow embedding of the two batch drivers of the `cygnus-x1-analysis/scripts`
repository: `run_nupipeline.py` (stage 1) and `run_nuproducts.py` (stage 2).

The embedding models:
* the on-disk state a single work unit sees (its log file and output
  directory) as explicit data;
* the completion detectors `_needs_rerun` of both drivers, including the
  leftmost-match semantics of `re.search` for the stage-1 finished marker;
* the stage-1 work-planning loop of `run_nupipeline.main`, with an event
  trace recording wipes, queueings and skips;
* the stage-2 job launcher `_launch` as an event trace (mkdir, completion
  re-check, subprocess return, marker append);
* both dispatch/aggregation loops, fed with an arbitrary completion-ordered
  list of per-future results (a returned exit code or a raised exception);
* both startup sequences (environment check, configuration loading).

Python exceptions are modelled with `Except`: a function that can let an
exception escape returns `Except Unit α` (or `Except String α` when the
escaping value matters); a function that catches everything returns plainly.
-/

namespace Orchestrator

/-- State of one unit's log file as the drivers can observe it:
missing, present but raising `OSError` on read, or readable with the
given list of lines (`read_text(errors="ignore").splitlines()`). -/
inductive LogState : Type
  | absent : LogState
  | unreadable : LogState
  | readable : List String → LogState
deriving DecidableEq, Repr

/-- `pathlib.Path.is_file` / `.exists()` on the log path. -/
def LogState.isFile : LogState → Bool
  | .absent => false
  | .unreadable => true
  | .readable _ => true

/-- `pathlib.Path.read_text`: raises `OSError` when the file is absent or
unreadable, otherwise yields the lines. -/
def LogState.readText : LogState → Except Unit (List String)
  | .absent => Except.error ()
  | .unreadable => Except.error ()
  | .readable ls => Except.ok ls

/-! ## Stage-1 completion detector (`run_nupipeline._needs_rerun`)

`_FINISH_RE = re.compile(r"Finished nupipeline for (\d+)")`, applied with
`re.search` to each line: the leftmost occurrence of the literal
`"Finished nupipeline for "` followed by at least one digit matches, and the
greedy group `(\d+)` captures the maximal digit run there. -/

/-- The literal part of the stage-1 finished pattern. -/
def finLit : List Char := "Finished nupipeline for ".data

/-- `p.beginsWith s`: the character list `p` is a prefix of `s`. -/
def beginsWith : List Char → List Char → Bool
  | [], _ => true
  | _ :: _, [] => false
  | p :: ps, c :: cs => p == c && beginsWith ps cs

/-- Leftmost-match search for the finished pattern over the characters of a
line; returns the captured digit group of the first (leftmost) match. -/
def finSearchAux : List Char → Option (List Char)
  | [] => none
  | c :: rest =>
    if beginsWith finLit (c :: rest) then
      let ds := ((c :: rest).drop finLit.length).takeWhile Char.isDigit
      if ds.isEmpty then finSearchAux rest else some ds
    else finSearchAux rest

/-- `re.search(_FINISH_RE, line)`: the captured observation id of the
leftmost match of `Finished nupipeline for (\d+)` in `line`, if any. -/
def finSearch (line : String) : Option String :=
  (finSearchAux line.data).map fun ds => String.mk ds

/-- `lines[-100:]`: the final (at most) 100 lines. -/
def tail100 (lines : List String) : List String :=
  lines.drop (lines.length - 100)

/-- The loop `for line in L: m = search(line); if m and m.group(1) == obsid:
return False` — true when some line's leftmost match captures exactly
`obsid`. -/
def scanLines (obsid : String) : List String → Bool
  | [] => false
  | line :: rest =>
    match finSearch line with
    | some g => if g == obsid then true else scanLines obsid rest
    | none => scanLines obsid rest

/-- `run_nupipeline._needs_rerun`: true when the observation must be
(re)processed. The `is_file` test runs first; the read is wrapped in
`try ... except OSError: pass`, so a read error falls through to
`return True`. -/
def needs_rerun1 (obsid : String) (log : LogState) : Bool :=
  if !log.isFile then
    true
  else
    match log.readText with
    | Except.error _ => true
    | Except.ok lines => !scanLines obsid (tail100 lines).reverse

/-! ## Stage-2 completion detector (`run_nuproducts._needs_rerun`)

`FIN_RE = re.compile(r"^nuproducts done", re.M)` searched over the whole
text: some line starts with the literal `nuproducts done`. The read is NOT
wrapped in any `try`, so an `OSError` from `read_text` escapes to the
caller; `log.exists()` short-circuits the conjunction when the file is
absent. -/

/-- `FIN_RE.search(text)` over the lines of the log. -/
def hasDoneMarker (lines : List String) : Bool :=
  lines.any fun l => beginsWith "nuproducts done".data l.data

/-- `run_nuproducts._needs_rerun`: `not (log.exists() and
FIN_RE.search(log.read_text(errors="ignore")))`. A read error escapes
(`Except.error`). -/
def needs_rerun2 (log : LogState) : Except Unit Bool :=
  if !log.isFile then
    Except.ok true
  else
    match log.readText with
    | Except.error e => Except.error e
    | Except.ok lines => Except.ok (!hasDoneMarker lines)

/-! ## Stage-1 work planner (`run_nupipeline.main`, queueing loop)

```python
for obs in obsids:
    if _needs_rerun(obs, cfg):
        outdir = Path(cfg["outdir_base"]) / f"{obs}_out"
        if outdir.is_dir():
            shutil.rmtree(outdir)          # wipe partial run
        worklist.append(obs)
    else:
        log skip
```

The filesystem is modelled per observation id: each id owns one output
directory (a flag) holding its log file. `shutil.rmtree` removes the
directory and everything in it, so the log becomes absent. -/

/-- What the filesystem holds for one observation id: whether
`<outdir_base>/<obsid>_out` exists, and the state of the log inside it. -/
structure UnitFS : Type where
  outdirExists : Bool
  log : LogState
deriving DecidableEq, Repr

/-- The whole filesystem, keyed by observation id. -/
abbrev Fs : Type := String → UnitFS

/-- `shutil.rmtree` on one observation's output directory: the directory is
gone and so is the log file inside it. -/
def wipe (fs : Fs) (obs : String) : Fs :=
  fun o => if o = obs then ⟨false, LogState.absent⟩ else fs o

/-- Observable planner actions, in program order. -/
inductive PlanEvent : Type
  | wiped : String → PlanEvent
  | queued : String → PlanEvent
  | skipped : String → PlanEvent
deriving DecidableEq, Repr

/-- The stage-1 planning loop: returns the worklist (in input order), the
filesystem after the wipes, and the trace of actions in program order. -/
def plan1 : List String → Fs → List String × Fs × List PlanEvent
  | [], fs => ([], fs, [])
  | obs :: rest, fs =>
    if needs_rerun1 obs (fs obs).log then
      if (fs obs).outdirExists then
        let r := plan1 rest (wipe fs obs)
        (obs :: r.1, r.2.1, PlanEvent.wiped obs :: PlanEvent.queued obs :: r.2.2)
      else
        let r := plan1 rest fs
        (obs :: r.1, r.2.1, PlanEvent.queued obs :: r.2.2)
    else
      let r := plan1 rest fs
      (r.1, r.2.1, PlanEvent.skipped obs :: r.2.2)

/-- `adjWQ obs tr`: somewhere in the trace, `wiped obs` is immediately
followed by `queued obs` — the directory was removed right before the unit
was queued. -/
def adjWQ (obs : String) : List PlanEvent → Bool
  | [] => false
  | [_] => false
  | e1 :: e2 :: rest =>
    (e1 = PlanEvent.wiped obs && e2 = PlanEvent.queued obs) || adjWQ obs (e2 :: rest)

/-! ## Stage-2 task enumeration (`run_nuproducts.main`)

```python
combos = [(r_src, rin, rout, binsize)
          for r_src in rcfg["src_radii_arcsec"]
          for rin, rout in rcfg["bkg_annuli_arcsec"]
          for binsize in rcfg["bin_sizes_s"]]
tasks = [(obs, det, {**ocfg, **rcfg}, comb)
         for obs in ocfg["observations"] for det in ("A", "B")
         for comb in combos]
futs = { pool.submit(_launch, t): t for t in tasks }
```

Every task is submitted; no completion check happens before dispatch. -/

/-- The region-parameter part of the configuration (`region_cfg.json`). -/
structure Rcfg : Type where
  src_radii : List Nat
  bkg_annuli : List (Nat × Nat)
  bin_sizes : List Nat
deriving DecidableEq, Repr

/-- One (source radius, annulus inner, annulus outer, bin size) combination. -/
abbrev Comb : Type := Nat × Nat × Nat × Nat

/-- A stage-2 work-unit key: (observation id, detector tag, combination). -/
abbrev Unit2 : Type := String × Char × Comb

/-- The `combos` list comprehension, in its iteration order. -/
def combos (r : Rcfg) : List Comb :=
  r.src_radii.flatMap fun rs =>
    r.bkg_annuli.flatMap fun ri =>
      r.bin_sizes.map fun b => (rs, ri.1, ri.2, b)

/-- The `tasks` list comprehension, in its iteration order. -/
def tasks2 (obsl : List String) (r : Rcfg) : List Unit2 :=
  obsl.flatMap fun obs =>
    ['A', 'B'].flatMap fun det =>
      (combos r).map fun comb => (obs, det, comb)

/-- The set of units submitted to the pool: `main` submits every element of
`tasks`, unconditionally — the completion detector is not consulted here. -/
def submitted2 (obsl : List String) (r : Rcfg) : List Unit2 :=
  tasks2 obsl r

/-! ## Stage-2 job launcher (`run_nuproducts._launch`)

```python
outdir.mkdir(parents=True, exist_ok=True)
if not _needs_rerun(outdir):
    return obsid, det, comb, 0
rc = subprocess.call(cmd, stdout=open(log, "w"), stderr=subprocess.STDOUT)
if rc == 0:
    with open(log, "a") as fp:
        fp.write("\nnuproducts done\n")
return obsid, det, comb, rc
```

The subprocess either returns an exit code or raises while spawning. -/

/-- Outcome of `subprocess.call`: a returned exit code, or an exception
raised while spawning the child process. -/
inductive SpawnRes : Type
  | ret : Int → SpawnRes
  | raised : SpawnRes
deriving DecidableEq, Repr

/-- Observable launcher actions, in program order. -/
inductive L2Event : Type
  | mkdirOutdir : L2Event
  | checkComplete : L2Event
  | subprocReturn : Int → L2Event
  | markerAppend : L2Event
deriving DecidableEq, Repr

/-- Result of one `_launch` call together with its trace and the final
state of the unit's output directory. `Except.error` means an exception
escaped `_launch` (the detector's read raised, or the spawn raised). -/
structure Launch2Result : Type where
  events : List L2Event
  result : Except Unit Int
  outdirExists : Bool
deriving Repr

/-- `_launch` for one stage-2 unit: `preOutdir` is whether the unit's output
directory existed before the call (`mkdir(parents=True, exist_ok=True)`
tolerates either state and leaves the directory existing), `log` is the
unit's log state at the completion re-check, `spawn` what `subprocess.call`
would do. The launcher itself installs no exception handler. -/
def launch2 (_preOutdir : Bool) (log : LogState) (spawn : SpawnRes) : Launch2Result :=
  match needs_rerun2 log with
  | Except.error e =>
    ⟨[L2Event.mkdirOutdir, L2Event.checkComplete], Except.error e, true⟩
  | Except.ok false =>
    ⟨[L2Event.mkdirOutdir, L2Event.checkComplete], Except.ok 0, true⟩
  | Except.ok true =>
    match spawn with
    | SpawnRes.raised =>
      ⟨[L2Event.mkdirOutdir, L2Event.checkComplete], Except.error (), true⟩
    | SpawnRes.ret rc =>
      if rc = 0 then
        ⟨[L2Event.mkdirOutdir, L2Event.checkComplete,
          L2Event.subprocReturn rc, L2Event.markerAppend], Except.ok rc, true⟩
      else
        ⟨[L2Event.mkdirOutdir, L2Event.checkComplete,
          L2Event.subprocReturn rc], Except.ok rc, true⟩

/-! ## Stage-1 worker and dispatch loop (`run_nupipeline`)

`_launch_one` has no `try`: an exception from `subprocess.call` escapes the
worker. The dispatch loop calls `fut.result()` with no `try` either, so the
first delivered exception aborts the loop and the remaining outcomes are
never collected; `main` then dies with an uncaught exception (interpreter
exit status 1). On a normal pass `main` just returns (exit status 0) —
non-zero exit codes are logged but not aggregated. -/

/-- What one future delivers to the dispatch loop: the worker's returned
exit code, or the exception it let escape. -/
inductive FutRes : Type
  | val : Int → FutRes
  | exc : FutRes
deriving DecidableEq, Repr

/-- `run_nupipeline._launch_one`: returns `(obsid, exit code)`; a spawn
exception escapes (no handler). -/
def launch_one (obs : String) (spawn : SpawnRes) : Except Unit (String × Int) :=
  match spawn with
  | SpawnRes.ret rc => Except.ok (obs, rc)
  | SpawnRes.raised => Except.error ()

/-- The stage-1 dispatch loop over the futures in completion order: each
`fut.result()` either yields `(obs, rc)` or re-raises the worker's
exception, which aborts the loop (the collected outcomes of the remaining
futures are lost). `Except.error obs` records which unit's exception
escaped. -/
def loop1 : List (String × FutRes) → Except String (List (String × Int))
  | [] => Except.ok []
  | (obs, FutRes.exc) :: _ => Except.error obs
  | (obs, FutRes.val rc) :: rest =>
    match loop1 rest with
    | Except.error e => Except.error e
    | Except.ok outs => Except.ok ((obs, rc) :: outs)

/-- Final exit status of the stage-1 driver after dispatch: `main` returns
`None` on a completed loop (process exit 0); an uncaught exception makes
the interpreter exit 1. No `sys.exit` depends on the collected exit
codes. -/
def exit1 (delivered : List (String × FutRes)) : Nat :=
  match loop1 delivered with
  | Except.ok _ => 0
  | Except.error _ => 1

/-- The failure outcomes of a stage-1 run: units whose tool exited non-zero
or whose worker raised. (The stage-1 driver never materialises this set;
it is the spec's notion of failures, used to state the exit-code law.) -/
def failures1 (delivered : List (String × FutRes)) : List (String × FutRes) :=
  delivered.filter fun p =>
    match p.2 with
    | FutRes.val rc => rc ≠ 0
    | FutRes.exc => true

/-! ## Stage-2 dispatch loop and aggregator (`run_nuproducts.main`)

```python
for fut in tqdm(as_completed(futs), ...):
    try:
        oid, detd, combd, rc = fut.result()
    except Exception as e:
        failures.append((obsid, det, comb, "exception"))
    else:
        if rc != 0: failures.append((oid, detd, combd, rc))
        else: log success
if failures: sys.exit(1)
else: sys.exit(0)
```
-/

/-- Status recorded for one stage-2 outcome: the integer exit code, or the
string sentinel `"exception"` appended when `fut.result()` raised. -/
inductive Status : Type
  | exitCode : Int → Status
  | exception : Status
deriving DecidableEq, Repr

/-- The stage-2 dispatch loop over the futures in completion order: returns
(outcomes reported, failures recorded), both in completion order. Every
delivered future yields exactly one outcome; exceptions are caught and
recorded with the `"exception"` sentinel. -/
def dispatch2 : List (Unit2 × FutRes) → List (Unit2 × Status) × List (Unit2 × Status)
  | [] => ([], [])
  | (u, FutRes.exc) :: rest =>
    let r := dispatch2 rest
    ((u, Status.exception) :: r.1, (u, Status.exception) :: r.2)
  | (u, FutRes.val rc) :: rest =>
    let r := dispatch2 rest
    if rc ≠ 0 then ((u, Status.exitCode rc) :: r.1, (u, Status.exitCode rc) :: r.2)
    else ((u, Status.exitCode rc) :: r.1, r.2)

/-- Final exit status of the stage-2 driver: `sys.exit(1)` when the
failures list is non-empty, `sys.exit(0)` otherwise. -/
def exit2 (delivered : List (Unit2 × FutRes)) : Nat :=
  if (dispatch2 delivered).2.isEmpty then 0 else 1

/-! ## Startup sequences -/

/-- The two required environment variables. -/
structure Env : Type where
  headas : Bool
  caldb : Bool
deriving DecidableEq, Repr

/-- How a startup sequence ends. -/
inductive Startup : Type
  | fatalExit : String → Startup
  | uncaught : Startup
  | proceeds : Startup
deriving DecidableEq, Repr

/-- `run_nupipeline.main` startup: environment check (`sys.exit` with a
message), then `cfg_file.exists()` check (`sys.exit` with a message), then
the config is parsed and planning begins. -/
def startup1 (env : Env) (cfgPath : String) (cfgExists : Bool) : Startup :=
  if !(env.headas && env.caldb) then
    Startup.fatalExit "Error: HEADAS/CALDB not defined – did you run heainit/caldbinit?"
  else if !cfgExists then
    Startup.fatalExit ("Config file " ++ cfgPath ++ " not found.")
  else
    Startup.proceeds

/-- `run_nuproducts.main` startup: `region_cfg.json` and `obslist.json` are
read with no existence check (`read_text` raises `FileNotFoundError` when
missing, and nothing catches it), then the environment is checked with
`sys.exit`. -/
def startup2 (env : Env) (regionCfgExists obslistExists : Bool) : Startup :=
  if !regionCfgExists then
    Startup.uncaught
  else if !obslistExists then
    Startup.uncaught
  else if !(env.headas && env.caldb) then
    Startup.fatalExit "Error: HEASoft not initialised – run heainit & caldbinit first"
  else
    Startup.proceeds

/-! ## Concrete fixtures used by witnesses and counterexamples -/

/-- A sample stage-2 unit key. -/
def uEx : Unit2 := ("10", 'A', ((30 : Nat), (60 : Nat), (90 : Nat), (5 : Nat)))

/-- A log-state assignment under which every stage-2 unit is complete. -/
def fs2X : Unit2 → LogState := fun _ => LogState.readable ["junk", "nuproducts done"]

/-- A stage-1 filesystem: observation `11` is finished (valid marker in its
log), observation `22` has an output directory but no log. -/
def fsW : Fs := fun o =>
  if o = "11" then ⟨true, LogState.readable ["Finished nupipeline for 11"]⟩
  else ⟨true, LogState.absent⟩

/-! # Theorems -/

theorem scanLines_iff (obsid : String) (L : List String) :
    scanLines obsid L = true ↔ ∃ l ∈ L, finSearch l = some obsid := by
  induction L with
  | nil => simp [scanLines]
  | cons line rest ih =>
    cases hf : finSearch line with
    | none =>
      simp only [scanLines, hf, ih]
      constructor
      · rintro ⟨l, hl, he⟩
        exact ⟨l, List.mem_cons_of_mem _ hl, he⟩
      · rintro ⟨l, hl, he⟩
        rcases List.mem_cons.mp hl with h | h
        · subst h
          rw [hf] at he
          cases he
        · exact ⟨l, h, he⟩
    | some g =>
      simp only [scanLines, hf]
      cases hg : g == obsid with
      | true =>
        have hg' : g = obsid := eq_of_beq hg
        subst hg'
        simp only [if_pos rfl]
        constructor
        · intro _
          exact ⟨line, List.mem_cons_self _ _, hf⟩
        · intro _
          rfl
      | false =>
        have hg' : g ≠ obsid := by
          intro h
          subst h
          simp at hg
        simp only [hg, Bool.false_eq_true, if_false, ih]
        constructor
        · rintro ⟨l, hl, he⟩
          exact ⟨l, List.mem_cons_of_mem _ hl, he⟩
        · rintro ⟨l, hl, he⟩
          rcases List.mem_cons.mp hl with h | h
          · subst h
            rw [hf] at he
            injection he with hge
            exact absurd hge hg'
          · exact ⟨l, h, he⟩

/-- C6 (confirmed): the stage-1 completion check returns "not complete" on
an absent log, and for a readable log it returns "complete" exactly when
some line among the last 100 lines carries a finished marker whose embedded
observation id (the leftmost match's digit group) equals the unit's id; a
marker with a different id, or one before the last 100 lines, never counts. -/
theorem C6_stage1_detector (obsid : String) (lines : List String) :
    needs_rerun1 obsid LogState.absent = true ∧
    (needs_rerun1 obsid (LogState.readable lines) = false ↔
      ∃ l ∈ tail100 lines, finSearch l = some obsid) := by
  refine ⟨rfl, ?_⟩
  simp only [needs_rerun1, LogState.isFile, LogState.readText, Bool.not_true,
    Bool.false_eq_true, if_false, Bool.not_eq_false']
  rw [scanLines_iff]
  simp [List.mem_reverse]

/-- C7 counterexample: the stage-2 detector does not contain the claimed
error handling — on a log file that exists but raises on read, it lets the
`OSError` escape to its caller instead of answering "not complete". -/
theorem C7_counterexample :
    LogState.isFile LogState.unreadable = true ∧
    needs_rerun2 LogState.unreadable = Except.error () := ⟨rfl, rfl⟩

/-- C7 (corrected): only the stage-1 detector swallows a read error and
reports "not complete"; the stage-2 detector propagates the read error to
its caller. -/
theorem C7_read_error (obsid : String) :
    needs_rerun1 obsid LogState.unreadable = true ∧
    needs_rerun2 LogState.unreadable = Except.error () := ⟨rfl, rfl⟩

theorem wipe_of_ne (fs : Fs) (obs o : String) (h : o ≠ obs) :
    wipe fs obs o = fs o := by
  simp [wipe, h]

theorem plan1_complete (obsids : List String) (fs : Fs) (obs : String)
    (h : needs_rerun1 obs (fs obs).log = false) :
    obs ∉ (plan1 obsids fs).1 ∧ (plan1 obsids fs).2.1 obs = fs obs := by
  induction obsids generalizing fs with
  | nil => simp [plan1]
  | cons hd rest ih =>
    by_cases hob : hd = obs
    · subst hob
      simp only [plan1, h, Bool.false_eq_true, if_false]
      have := ih fs h
      exact ⟨this.1, this.2⟩
    · have hne : obs ≠ hd := fun he => hob he.symm
      by_cases hr : needs_rerun1 hd (fs hd).log = true
      · by_cases ho : (fs hd).outdirExists = true
        · have hfs : (wipe fs hd) obs = fs obs := wipe_of_ne fs hd obs hne
          have h' : needs_rerun1 obs ((wipe fs hd) obs).log = false := by
            rw [hfs]; exact h
          have := ih (wipe fs hd) h'
          simp only [plan1, hr, if_true, ho]
          refine ⟨?_, by rw [this.2, hfs]⟩
          intro hmem
          rcases List.mem_cons.mp hmem with he | hm
          · exact hne he
          · exact this.1 hm
        · have := ih fs h
          simp only [plan1, hr, if_true, eq_false_of_ne_true ho, Bool.false_eq_true, if_false]
          refine ⟨?_, this.2⟩
          intro hmem
          rcases List.mem_cons.mp hmem with he | hm
          · exact hne he
          · exact this.1 hm
      · have := ih fs h
        simp only [plan1, eq_false_of_ne_true hr, Bool.false_eq_true, if_false]
        exact ⟨this.1, this.2⟩

theorem adjWQ_cons (obs : String) (e : PlanEvent) (l : List PlanEvent)
    (h : adjWQ obs l = true) : adjWQ obs (e :: l) = true := by
  cases l with
  | nil => cases h
  | cons x xs =>
    simp only [adjWQ]
    rw [h]
    simp

theorem plan1_wipe_before_queue (obsids : List String) (fs : Fs) (obs : String)
    (h : needs_rerun1 obs (fs obs).log = true)
    (ho : (fs obs).outdirExists = true)
    (hm : obs ∈ obsids) :
    adjWQ obs (plan1 obsids fs).2.2 = true := by
  induction obsids generalizing fs with
  | nil => cases hm
  | cons hd rest ih =>
    by_cases hob : hd = obs
    · subst hob
      simp only [plan1, h, if_true, ho]
      simp [adjWQ]
    · have hne : obs ≠ hd := fun he => hob he.symm
      have hm' : obs ∈ rest := by
        rcases List.mem_cons.mp hm with he | h2
        · exact absurd he hne
        · exact h2
      by_cases hr : needs_rerun1 hd (fs hd).log = true
      · by_cases hod : (fs hd).outdirExists = true
        · have hfs : (wipe fs hd) obs = fs obs := wipe_of_ne fs hd obs hne
          have tail := ih (wipe fs hd) (by rw [hfs]; exact h) (by rw [hfs]; exact ho) hm'
          simp only [plan1, hr, if_true, hod]
          exact adjWQ_cons obs _ _ (adjWQ_cons obs _ _ tail)
        · have tail := ih fs h ho hm'
          simp only [plan1, hr, if_true, eq_false_of_ne_true hod, Bool.false_eq_true, if_false]
          exact adjWQ_cons obs _ _ tail
      · have tail := ih fs h ho hm'
        simp only [plan1, eq_false_of_ne_true hr, Bool.false_eq_true, if_false]
        exact adjWQ_cons obs _ _ tail

/-- C8 (confirmed): a stage-1 unit judged incomplete whose output directory
exists has that directory recursively removed immediately before it is
queued (the trace shows `wiped` directly followed by `queued`); a unit whose
log carries the valid completion marker is never put on the worklist and its
filesystem state (output directory and log) is left untouched by planning. -/
theorem C8_resume_correctness (obsids : List String) (fs : Fs) (obs : String) :
    (needs_rerun1 obs (fs obs).log = false →
      obs ∉ (plan1 obsids fs).1 ∧ (plan1 obsids fs).2.1 obs = fs obs) ∧
    (needs_rerun1 obs (fs obs).log = true → (fs obs).outdirExists = true →
      obs ∈ obsids → adjWQ obs (plan1 obsids fs).2.2 = true) :=
  ⟨fun h => plan1_complete obsids fs obs h,
   fun h ho hm => plan1_wipe_before_queue obsids fs obs h ho hm⟩

/-- C3 counterexample: in the stage-2 driver the Work Planner performs no
completion check — a unit whose log already carries the done marker (the
detector answers "complete") is nevertheless in the list of tasks submitted
to the worker pool. -/
theorem C3_counterexample :
    needs_rerun2 (fs2X uEx) = Except.ok false ∧
    uEx ∈ submitted2 ["10"] ⟨[30], [(60, 90)], [5]⟩ := by
  constructor
  · rfl
  · decide

/-- C3 (corrected): only the stage-1 planner consults the completion
detector before dispatch and keeps complete units off the worklist; the
stage-2 driver submits every enumerated unit unconditionally, and its
completion check lives inside the launcher, which short-circuits a complete
unit with a success result and never reaches the subprocess. -/
theorem C3_completion_gating (obsids : List String) (fs : Fs) (obs : String)
    (obsl : List String) (r : Rcfg) (pre : Bool) (log : LogState) (spawn : SpawnRes) :
    (needs_rerun1 obs (fs obs).log = false → obs ∉ (plan1 obsids fs).1) ∧
    submitted2 obsl r = tasks2 obsl r ∧
    (needs_rerun2 log = Except.ok false →
      (launch2 pre log spawn).result = Except.ok 0 ∧
      ∀ rc, L2Event.subprocReturn rc ∉ (launch2 pre log spawn).events) := by
  refine ⟨fun h => (plan1_complete obsids fs obs h).1, rfl, fun h => ?_⟩
  constructor
  · simp [launch2, h]
  · intro rc
    simp [launch2, h]

theorem C3_completion_gating_witness :
    "11" ∉ (plan1 ["11", "22"] fsW).1 ∧
    (launch2 false (fs2X uEx) SpawnRes.raised).result = Except.ok 0 :=
  ⟨(C3_completion_gating ["11", "22"] fsW "11" ["10"] ⟨[30], [(60, 90)], [5]⟩
      false (fs2X uEx) SpawnRes.raised).1 (by decide),
   ((C3_completion_gating ["11", "22"] fsW "11" ["10"] ⟨[30], [(60, 90)], [5]⟩
      false (fs2X uEx) SpawnRes.raised).2.2 (by rfl)).1⟩

theorem C8_resume_correctness_witness :
    ("11" ∉ (plan1 ["11", "22"] fsW).1 ∧ (plan1 ["11", "22"] fsW).2.1 "11" = fsW "11") ∧
    adjWQ "22" (plan1 ["11", "22"] fsW).2.2 = true :=
  ⟨(C8_resume_correctness ["11", "22"] fsW "11").1 (by decide),
   (C8_resume_correctness ["11", "22"] fsW "22").2 (by decide) (by decide) (by decide)⟩

/-- C10 (confirmed): the stage-2 launcher runs `mkdir` on the unit's output
directory before the pre-execution completion re-check — its first two
actions are always `mkdirOutdir` then `checkComplete` — and the output
directory exists after the call for every prior state, in particular when
the directory did not exist beforehand and the unit was short-circuited as
already complete: the re-check is not free of filesystem side effects. -/
theorem C10_mkdir_before_check (preOutdir : Bool) (log : LogState) (spawn : SpawnRes) :
    (launch2 preOutdir log spawn).events.take 2 =
      [L2Event.mkdirOutdir, L2Event.checkComplete] ∧
    (launch2 preOutdir log spawn).outdirExists = true := by
  simp only [launch2]
  cases hn : needs_rerun2 log with
  | error e => exact ⟨rfl, rfl⟩
  | ok b =>
    cases b with
    | false => exact ⟨rfl, rfl⟩
    | true =>
      cases spawn with
      | raised => exact ⟨rfl, rfl⟩
      | ret rc =>
        by_cases hrc : rc = 0 <;> simp [hrc]

/-- C2 (confirmed): for a stage-2 unit whose subprocess actually runs (the
re-check answered "not complete" and `subprocess.call` returned `rc`), the
completion marker is appended exactly when `rc = 0`, and any marker-append
event in the trace comes strictly after the subprocess-return event. -/
theorem C2_marker_ordering (pre : Bool) (log : LogState) (rc : Int)
    (h : needs_rerun2 log = Except.ok true) :
    ((L2Event.markerAppend ∈ (launch2 pre log (SpawnRes.ret rc)).events) ↔ rc = 0) ∧
    (∀ i k, (launch2 pre log (SpawnRes.ret rc)).events.get? i = some L2Event.markerAppend →
      (launch2 pre log (SpawnRes.ret rc)).events.get? k = some (L2Event.subprocReturn rc) →
      k < i) := by
  by_cases hrc : rc = 0
  · subst hrc
    constructor
    · simp [launch2, h]
    · intro i k hi hk
      simp only [launch2, h, if_pos rfl] at hi hk
      have hi3 : i = 3 := by
        rcases i with _ | _ | _ | _ | i <;> simp_all [List.get?]
      have hk2 : k = 2 := by
        rcases k with _ | _ | _ | _ | k <;> simp_all [List.get?]
      omega
  · constructor
    · simp [launch2, h, hrc]
    · intro i k hi hk
      simp only [launch2, h, if_neg hrc] at hi hk
      exfalso
      rcases i with _ | _ | _ | i <;> simp_all [List.get?]

theorem C2_marker_ordering_witness :
    ((L2Event.markerAppend ∈
        (launch2 true (LogState.readable ["partial output"]) (SpawnRes.ret 0)).events) ↔
      (0 : Int) = 0) ∧
    (∀ i k, (launch2 true (LogState.readable ["partial output"])
        (SpawnRes.ret 0)).events.get? i = some L2Event.markerAppend →
      (launch2 true (LogState.readable ["partial output"])
        (SpawnRes.ret 0)).events.get? k = some (L2Event.subprocReturn 0) →
      k < i) :=
  C2_marker_ordering true (LogState.readable ["partial output"]) 0 (by rfl)

theorem dispatch2_outcome_keys (d : List (Unit2 × FutRes)) :
    (dispatch2 d).1.map Prod.fst = d.map Prod.fst := by
  induction d with
  | nil => rfl
  | cons p rest ih =>
    rcases p with ⟨u, r⟩
    cases r with
    | exc => simp [dispatch2, ih]
    | val rc =>
      by_cases hrc : rc ≠ 0 <;> simp [dispatch2, hrc, ih]

theorem loop1_total (d : List (String × FutRes))
    (h : ∀ p ∈ d, p.2 ≠ FutRes.exc) :
    ∃ outs, loop1 d = Except.ok outs ∧ outs.map Prod.fst = d.map Prod.fst := by
  induction d with
  | nil => exact ⟨[], rfl, rfl⟩
  | cons p rest ih =>
    rcases p with ⟨obs, r⟩
    cases r with
    | exc =>
      exact absurd rfl (h (obs, FutRes.exc) (List.mem_cons_self _ _))
    | val rc =>
      have hrest : ∀ q ∈ rest, q.2 ≠ FutRes.exc :=
        fun q hq => h q (List.mem_cons_of_mem _ hq)
      rcases ih hrest with ⟨outs, hok, hkeys⟩
      refine ⟨(obs, rc) :: outs, ?_, ?_⟩
      · simp [loop1, hok]
      · simp [hkeys]

/-- C4 counterexample: in the stage-1 dispatch loop an exception delivered
by one future aborts the loop (`fut.result()` re-raises with no handler), so
the second unit's outcome is never collected — the loop produces no outcome
list at all, only the escaping exception of unit `"1"`. -/
theorem C4_counterexample :
    loop1 [("1", FutRes.exc), ("2", FutRes.val 0)] = Except.error "1" := rfl

/-- C4 (corrected): the stage-2 dispatch loop collects exactly one outcome
per delivered future — for every completion order and every mix of
successes, non-zero exits and exceptions, the reported outcomes' keys are
exactly the delivered keys. The stage-1 loop does so only when no worker
raised: then it returns one `(obsid, exit code)` pair per delivered future;
a raised exception aborts its collection. -/
theorem C4_drain (d2 : List (Unit2 × FutRes)) (d1 : List (String × FutRes)) :
    (dispatch2 d2).1.map Prod.fst = d2.map Prod.fst ∧
    ((∀ p ∈ d1, p.2 ≠ FutRes.exc) →
      ∃ outs, loop1 d1 = Except.ok outs ∧ outs.map Prod.fst = d1.map Prod.fst) :=
  ⟨dispatch2_outcome_keys d2, fun h => loop1_total d1 h⟩

theorem C4_drain_witness :
    (dispatch2 [(uEx, FutRes.exc)]).1.map Prod.fst = [(uEx, FutRes.exc)].map Prod.fst ∧
    ∃ outs, loop1 [("1", FutRes.val 2), ("2", FutRes.val 0)] = Except.ok outs ∧
      outs.map Prod.fst = [("1", FutRes.val 2), ("2", FutRes.val 0)].map Prod.fst :=
  ⟨(C4_drain [(uEx, FutRes.exc)] [("1", FutRes.val 2), ("2", FutRes.val 0)]).1,
   (C4_drain [(uEx, FutRes.exc)] [("1", FutRes.val 2), ("2", FutRes.val 0)]).2 (by decide)⟩

/-- C5 counterexample: in stage 1 a spawn exception is not converted
anywhere — `_launch_one` lets it escape the worker, and the dispatch loop
lets it escape `main`. -/
theorem C5_counterexample :
    launch_one "1" SpawnRes.raised = Except.error () ∧
    loop1 [("1", FutRes.exc)] = Except.error "1" := ⟨rfl, rfl⟩

/-- C5 (corrected): only the stage-2 driver converts a worker exception into
a failure outcome, and it does so in the dispatch loop (not the launcher):
the outcome carries the `"exception"` sentinel, which differs from every
integer exit status. In stage 1 the exception propagates out of the worker
(`_launch_one` has no handler) and then out of the dispatch loop. -/
theorem C5_exception_conversion (u : Unit2) (rest : List (Unit2 × FutRes))
    (obs : String) (rest1 : List (String × FutRes)) :
    ((dispatch2 ((u, FutRes.exc) :: rest)).1 =
        (u, Status.exception) :: (dispatch2 rest).1 ∧
      (dispatch2 ((u, FutRes.exc) :: rest)).2 =
        (u, Status.exception) :: (dispatch2 rest).2 ∧
      ∀ rc : Int, Status.exception ≠ Status.exitCode rc) ∧
    (launch_one obs SpawnRes.raised = Except.error () ∧
      loop1 ((obs, FutRes.exc) :: rest1) = Except.error obs) := by
  refine ⟨⟨rfl, rfl, fun rc h => ?_⟩, rfl, rfl⟩
  cases h

theorem C5_exception_conversion_witness :
    (dispatch2 [(uEx, FutRes.exc)]).1 = [(uEx, Status.exception)] ∧
    Status.exception ≠ Status.exitCode 1 ∧
    loop1 [("9", FutRes.exc)] = Except.error "9" :=
  ⟨(C5_exception_conversion uEx [] "9" []).1.1,
   (C5_exception_conversion uEx [] "9" []).1.2.2 1,
   (C5_exception_conversion uEx [] "9" []).2.2⟩

theorem dispatch2_cons_exc (u : Unit2) (rest : List (Unit2 × FutRes)) :
    dispatch2 ((u, FutRes.exc) :: rest) =
      ((u, Status.exception) :: (dispatch2 rest).1,
       (u, Status.exception) :: (dispatch2 rest).2) := rfl

theorem dispatch2_cons_val_zero (u : Unit2) (rest : List (Unit2 × FutRes)) :
    dispatch2 ((u, FutRes.val 0) :: rest) =
      ((u, Status.exitCode 0) :: (dispatch2 rest).1, (dispatch2 rest).2) := by
  simp [dispatch2]

theorem dispatch2_cons_val_ne (u : Unit2) (rc : Int) (rest : List (Unit2 × FutRes))
    (h : rc ≠ 0) :
    dispatch2 ((u, FutRes.val rc) :: rest) =
      ((u, Status.exitCode rc) :: (dispatch2 rest).1,
       (u, Status.exitCode rc) :: (dispatch2 rest).2) := by
  simp [dispatch2, h]

theorem dispatch2_failures_nil_iff (d : List (Unit2 × FutRes)) :
    (dispatch2 d).2 = [] ↔ ∀ p ∈ d, p.2 = FutRes.val 0 := by
  induction d with
  | nil =>
    constructor
    · intro _ p hp
      cases hp
    · intro _
      rfl
  | cons p rest ih =>
    rcases p with ⟨u, r⟩
    cases r with
    | exc =>
      rw [dispatch2_cons_exc]
      dsimp only
      constructor
      · intro h
        cases h
      · intro h
        have h0 := h (u, FutRes.exc) (List.mem_cons_self _ _)
        cases h0
    | val rc =>
      by_cases hrc : rc = 0
      · subst hrc
        rw [dispatch2_cons_val_zero]
        dsimp only
        constructor
        · intro h p hp
          rcases List.mem_cons.mp hp with he | hm
          · subst he
            rfl
          · exact ih.mp h p hm
        · intro h
          exact ih.mpr fun q hq => h q (List.mem_cons_of_mem _ hq)
      · rw [dispatch2_cons_val_ne u rc rest hrc]
        dsimp only
        constructor
        · intro h
          cases h
        · intro h
          have h0 := h (u, FutRes.val rc) (List.mem_cons_self _ _)
          injection h0 with h2
          exact absurd h2 hrc

/-- C1 counterexample: a stage-1 run whose only unit exits with code 2 has
a non-empty failure set, yet the driver's final exit status is 0 — stage 1
never aggregates failures into its exit status. -/
theorem C1_counterexample :
    failures1 [("1", FutRes.val 2)] = [("1", FutRes.val 2)] ∧
    exit1 [("1", FutRes.val 2)] = 0 := by
  constructor
  · rfl
  · rfl

theorem loop1_error_of_exc (d : List (String × FutRes))
    (h : ∃ p ∈ d, p.2 = FutRes.exc) : ∃ e, loop1 d = Except.error e := by
  induction d with
  | nil =>
    rcases h with ⟨p, hp, _⟩
    cases hp
  | cons q rest ih =>
    rcases q with ⟨obs, r⟩
    cases r with
    | exc => exact ⟨obs, rfl⟩
    | val rc =>
      have h' : ∃ p ∈ rest, p.2 = FutRes.exc := by
        rcases h with ⟨p, hp, hpe⟩
        rcases List.mem_cons.mp hp with he | hm
        · subst he
          cases hpe
        · exact ⟨p, hm, hpe⟩
      rcases ih h' with ⟨e, he⟩
      refine ⟨e, ?_⟩
      simp [loop1, he]

/-- C1 (corrected): the exit-code law holds for the stage-2 driver — exit
status 0 exactly when every delivered result is exit code 0, i.e. the
failure list is empty — but not for the stage-1 driver, which exits 0
whenever no worker raised an exception, regardless of non-zero exit codes,
and exits 1 (through the uncaught exception) whenever some worker raised,
wherever the raising future falls in the completion order. -/
theorem C1_exit_status (d2 : List (Unit2 × FutRes)) (d1 : List (String × FutRes)) :
    (exit2 d2 = 0 ↔ (dispatch2 d2).2 = []) ∧
    ((dispatch2 d2).2 = [] ↔ ∀ p ∈ d2, p.2 = FutRes.val 0) ∧
    ((∀ p ∈ d1, p.2 ≠ FutRes.exc) → exit1 d1 = 0) ∧
    ((∃ p ∈ d1, p.2 = FutRes.exc) → exit1 d1 = 1) := by
  refine ⟨?_, dispatch2_failures_nil_iff d2, fun h => ?_, fun h => ?_⟩
  · unfold exit2
    rcases hd : (dispatch2 d2).2 with _ | ⟨q, qs⟩ <;> simp [hd]
  · rcases loop1_total d1 h with ⟨outs, hok, _⟩
    unfold exit1
    rw [hok]
  · rcases loop1_error_of_exc d1 h with ⟨e, he⟩
    unfold exit1
    rw [he]

theorem C1_exit_status_witness :
    exit2 [(uEx, FutRes.val 3)] ≠ 0 ∧
    exit1 [("1", FutRes.val 2)] = 0 ∧
    exit1 [("a", FutRes.val 0), ("b", FutRes.exc)] = 1 := by
  refine ⟨?_, ?_, ?_⟩
  · intro h0
    have h1 := ((C1_exit_status [(uEx, FutRes.val 3)] []).1.mp h0)
    have h2 := (C1_exit_status [(uEx, FutRes.val 3)] []).2.1.mp h1
    have h3 := h2 (uEx, FutRes.val 3) (List.mem_cons_self _ _)
    cases h3
  · exact (C1_exit_status [] [("1", FutRes.val 2)]).2.2.1 (by decide)
  · exact (C1_exit_status [] [("a", FutRes.val 0), ("b", FutRes.exc)]).2.2.2 (by decide)

/-- C9 counterexample: in the stage-2 driver a missing `region_cfg.json` is
not handled at all — `read_text` raises and nothing catches it, so the
process dies with an uncaught exception instead of a controlled fatal exit. -/
theorem C9_counterexample :
    startup2 ⟨true, true⟩ false true = Startup.uncaught := rfl

/-- C9 (corrected): with a required configuration file missing, both
drivers terminate before any planning or dispatch (startup never proceeds),
but only the stage-1 driver does so through a controlled `sys.exit` with a
clear message; the stage-2 driver dies with an uncaught exception, whichever
of its two configuration files is missing. -/
theorem C9_config_missing (env : Env) (p : String) (oex : Bool) :
    (env.headas = true → env.caldb = true →
      startup1 env p false = Startup.fatalExit ("Config file " ++ p ++ " not found.")) ∧
    startup1 env p false ≠ Startup.proceeds ∧
    startup2 env false oex = Startup.uncaught ∧
    startup2 env true false = Startup.uncaught := by
  refine ⟨fun hh hc => ?_, ?_, rfl, by simp [startup2]⟩
  · simp [startup1, hh, hc]
  · unfold startup1
    rcases env with ⟨hh, hc⟩
    cases hh <;> cases hc <;> simp

theorem C9_config_missing_witness :
    startup1 ⟨true, true⟩ "obslist.json" false =
      Startup.fatalExit "Config file obslist.json not found." ∧
    startup2 ⟨true, true⟩ true false = Startup.uncaught :=
  ⟨(C9_config_missing ⟨true, true⟩ "obslist.json" true).1 rfl rfl,
   (C9_config_missing ⟨true, true⟩ "obslist.json" true).2.2.2⟩

end Orchestrator
